import Mathlib

/-
Verification of the SNS topic-subscription block.

The repository contains two variants of the same block:
  - src/blocks/subscribeSNSTopic.ts  (namespace TS below; 30 s timeout,
    reconfiguration-reset marker, optional createdAt on the handshake record)
  - src/unnamed/part_000             (namespace P0 below; 180 s timeout,
    topic pre-check in the HTTP handler, required createdAt)

The embedding is a shallow one: each handler is a pure function from an
explicit environment (the values the surrounding host and the AWS client
would return) to its returned result plus an ordered trace of effects.
Asynchronous calls that the source does not await are recorded in the trace
with an awaited = false flag; awaited calls carry awaited = true.

The JavaScript float comparison (Date.now() - createdAt) / 1000 > timeout is
embedded as exact rational division: for integer millisecond differences d
with |d| < 2^53 and small integer timeouts, IEEE double rounding never flips
this comparison (the nearest double to d / 1000 is on the same side of the
integer timeout as the exact quotient), so the rational model is exact.
-/

/-- One entry of a ListSubscriptionsByTopic response page; the SDK marks the
SubscriptionArn field optional. -/
structure Subscription where
  SubscriptionArn : Option String
deriving DecidableEq, Repr

/-- One ListSubscriptionsByTopic response page; both the Subscriptions list
and the NextToken continuation are optional in the SDK response type. -/
structure Page where
  Subscriptions : Option (List Subscription)
  NextToken : Option String
deriving DecidableEq, Repr

/-- Embedding of checkTopicSubscriptionExists (identical in both source
files). The pages list is the sequence of responses the provider returns to
the successive ListSubscriptionsByTopic calls along the NextToken chain.
The membership test mirrors the source exactly:
Subscriptions?.findIndex(v ⇒ v.SubscriptionArn === subscriptionArn) !== -1,
which in JavaScript is true when Subscriptions is absent, because the
optional chain yields undefined and undefined !== -1 holds. -/
def checkTopicSubscriptionExists (subscriptionArn : String) : List Page → Bool
  | [] => false
  | page :: rest =>
    let found :=
      match page.Subscriptions with
      | none => true
      | some subs => subs.any fun v => v.SubscriptionArn == some subscriptionArn
    if found then
      true
    else
      match page.NextToken with
      | some _ => checkTopicSubscriptionExists subscriptionArn rest
      | none => false

/-- Modelled from the spec, for comparison with the source function: true
exactly when some page of the response sequence lists an entry whose
SubscriptionArn equals the held identity. -/
def specSubscriptionExists (subscriptionArn : String) (pages : List Page) : Bool :=
  pages.any fun page =>
    (page.Subscriptions.getD []).any fun v => v.SubscriptionArn == some subscriptionArn

/-- Payload of the single output event emitted per Notification message. -/
structure EventPayload where
  message : String
  messageId : String
  timestamp : String
deriving DecidableEq, Repr

/-- Inbound SNS callback payload, restricted to the fields the handlers
consume. -/
structure Payload where
  «Type» : String
  SubscribeURL : String := ""
  TopicArn : String := ""
  Message : String := ""
  MessageId : String := ""
  Timestamp : String := ""
deriving DecidableEq, Repr

/-- Ordered effect trace entries; the state type sigma is the per-variant
persisted handshake record. The awaited flag records whether the source
awaited the underlying promise before continuing. -/
inductive Effect (σ : Type) where
  | kvSet (key : String) (value : σ) (ttl : Option Int) (awaited : Bool)
  | kvDelete (keys : List String) (awaited : Bool)
  | subscribe (topicArn protocol endpoint : String) (attributes : List (String × String))
  | unsubscribe (subscriptionArn : String)
  | fetchURL (url : String)
  | emit (payload : EventPayload)
  | respond (statusCode : Int)
  | requestSync
deriving DecidableEq, Repr

/-- Result record returned by onSync and onDrain: newStatus plus the optional
signal update (none = signal untouched; some none = signal cleared to null),
reschedule delay and status description. -/
structure SyncResult where
  newStatus : String
  signalUpdates : Option (Option String) := none
  nextScheduleDelay : Option Int := none
  customStatusDescription : Option String := none
deriving DecidableEq, Repr

/-- True when the trace contains a Subscribe provider call. -/
def subscribeIssued {σ : Type} (l : List (Effect σ)) : Bool :=
  l.any fun e =>
    match e with
    | .subscribe _ _ _ _ => true
    | _ => false

/-- True when the trace contains an Unsubscribe provider call. -/
def unsubscribeIssued {σ : Type} (l : List (Effect σ)) : Bool :=
  l.any fun e =>
    match e with
    | .unsubscribe _ => true
    | _ => false

/-- True when the trace contains a key-value write. -/
def kvWriteIssued {σ : Type} (l : List (Effect σ)) : Bool :=
  l.any fun e =>
    match e with
    | .kvSet _ _ _ _ => true
    | _ => false

namespace TS

/-- Handshake status enum of src/blocks/subscribeSNSTopic.ts. -/
inductive SubscriptionStatus where
  | PENDING
  | FAILED
  | CONFIRMED
deriving DecidableEq, Repr

/-- Persisted handshake record of src/blocks/subscribeSNSTopic.ts; both
description and createdAt are optional in the TypeScript interface. -/
structure SubscriptionState where
  status : SubscriptionStatus
  description : Option String := none
  createdAt : Option Int := none
deriving DecidableEq, Repr

def subscriptionConfirmationKey : String := "subscription-confirmation"

def subscriptionResetKey : String := "subscription-reset"

def subscriptionTimeoutSeconds : Int := 30

def subscriptionRecheckSeconds : Int := 5

/-- Timeout test of the source, (Date.now() - createdAt) / 1000 >
subscriptionTimeoutSeconds, embedded as the exactly equivalent integer
comparison on millisecond operands; the lemma TS_timeoutExceeded_iff_rat
below proves it equal to the rational-division form. -/
def timeoutExceeded (nowMs createdAtMs : Int) : Bool :=
  nowMs - createdAtMs > subscriptionTimeoutSeconds * 1000

/-- Environment of one onSync tick of the TS variant: the reset-marker read,
the held identity signal, the block configuration, the ListSubscriptions
response pages, the stored handshake record, the current clock, and the
response the provider returns to a Subscribe call if one is issued. -/
structure SyncEnv where
  resetFlag : Bool
  subscriptionArn : Option String
  topicArn : String
  endpointURL : String
  attributes : List (String × String)
  pages : List Page
  kvState : Option SubscriptionState
  now : Int
  subscribeStatusCode : Int
  subscribeArn : Option String
deriving DecidableEq, Repr

/-- Tail of onSync from the SubscribeCommand onward (lines 225-266 of the
source): picks the protocol from the endpoint URL scheme, issues Subscribe,
and on a 200 response persists a fresh PENDING record (awaited, with the
timeout as TTL) and stores the returned identity in the signal. -/
def subscribeFlow (env : SyncEnv) : SyncResult × List (Effect SubscriptionState) :=
  let protocol := if env.endpointURL.startsWith "https" then "https" else "http"
  let call : Effect SubscriptionState :=
    .subscribe env.topicArn protocol env.endpointURL env.attributes
  if env.subscribeStatusCode ≠ 200 then
    ({ newStatus := "failed", signalUpdates := some none,
       customStatusDescription :=
         some ("Couldn\x27t issue SNS Subscribe command, statusCode: "
           ++ toString env.subscribeStatusCode) },
     [call])
  else
    ({ newStatus := "in_progress", signalUpdates := some env.subscribeArn,
       nextScheduleDelay := some subscriptionRecheckSeconds },
     [call,
      .kvSet subscriptionConfirmationKey
        { status := .PENDING, createdAt := some env.now }
        (some subscriptionTimeoutSeconds) true])

/-- Embedding of onSync of src/blocks/subscribeSNSTopic.ts. JavaScript
truthiness is modelled exactly: the empty string is a falsy signal value and
a zero createdAt fails the truthiness test the source uses for presence. The
timeout test is the source expression (Date.now() - createdAt) / 1000 >
subscriptionTimeoutSeconds over exact rationals. -/
def onSync (env : SyncEnv) : SyncResult × List (Effect SubscriptionState) :=
  if env.resetFlag then
    ({ newStatus := "draft", signalUpdates := some none },
     [.kvDelete [subscriptionResetKey] false])
  else
    match env.subscriptionArn with
    | none => subscribeFlow env
    | some arn =>
      if arn = "" then subscribeFlow env
      else if checkTopicSubscriptionExists arn env.pages then
        ({ newStatus := "ready" }, [.kvDelete [subscriptionConfirmationKey] true])
      else
        match env.kvState with
        | none => subscribeFlow env
        | some st =>
          match st.status with
          | .PENDING =>
            match st.createdAt with
            | none => subscribeFlow env
            | some t =>
              if t = 0 then subscribeFlow env
              else if timeoutExceeded env.now t then
                subscribeFlow env
              else
                ({ newStatus := "in_progress",
                   nextScheduleDelay := some subscriptionRecheckSeconds }, [])
          | .FAILED =>
            ({ newStatus := "failed", signalUpdates := some none,
               customStatusDescription := st.description }, [])
          | .CONFIRMED => subscribeFlow env

/-- Embedding of deleteTopicSubscription of the TS variant: resp is the
outcome of the UnsubscribeCommand send, either a network-level error message
or an HTTP status code; a non-200 code is turned into a thrown error and a
200 one is followed by an awaited delete of the handshake record. -/
def deleteTopicSubscription (subscriptionArn : String) (resp : Except String Int) :
    Except String Unit × List (Effect SubscriptionState) :=
  match resp with
  | .error msg => (.error msg, [.unsubscribe subscriptionArn])
  | .ok code =>
    if code ≠ 200 then
      (.error ("Couldn\x27t issue SNS unsubscribe command, statusCode: " ++ toString code),
       [.unsubscribe subscriptionArn])
    else
      (.ok (), [.unsubscribe subscriptionArn, .kvDelete [subscriptionConfirmationKey] true])

/-- Embedding of onDrain of the TS variant: with a held (truthy) identity it
deletes the handshake record, then attempts the unsubscribe; a caught error
yields draining_failed with the error message and no signal update. -/
def onDrain (subscriptionArn : Option String) (resp : Except String Int) :
    SyncResult × List (Effect SubscriptionState) :=
  match subscriptionArn with
  | none => ({ newStatus := "drained" }, [])
  | some arn =>
    if arn = "" then ({ newStatus := "drained" }, [])
    else
      let del := deleteTopicSubscription arn resp
      match del.1 with
      | .error msg =>
        ({ newStatus := "draining_failed", customStatusDescription := some msg },
         .kvDelete [subscriptionConfirmationKey] true :: del.2)
      | .ok _ =>
        ({ newStatus := "drained" },
         .kvDelete [subscriptionConfirmationKey] true :: del.2)

/-- Embedding of handleTopicSubscriptionMesage of the TS variant (source name
kept, typo included). fetchResp is the outcome of the GET of SubscribeURL.
The FAILED writes are issued without await (awaited = false), matching the
source, and are followed by an unawaited lifecycle.sync request. -/
def handleTopicSubscriptionMesage (p : Payload) (fetchResp : Except String Int) :
    List (Effect SubscriptionState) :=
  if p.«Type» = "SubscriptionConfirmation" then
    let fe : Effect SubscriptionState := .fetchURL p.SubscribeURL
    let confirmEffects :=
      match fetchResp with
      | .ok code =>
        if code ≠ 200 then
          [fe, .kvSet subscriptionConfirmationKey
            { status := .FAILED,
              description := some ("Confirming subscription, status code: " ++ toString code) }
            none false]
        else [fe]
      | .error msg =>
        [fe, .kvSet subscriptionConfirmationKey
          { status := .FAILED,
            description := some ("Sending confirm subscription requeste: " ++ msg) }
          none false]
    confirmEffects ++ [.requestSync]
  else if p.«Type» = "Notification" then
    [.emit { message := p.Message, messageId := p.MessageId, timestamp := p.Timestamp }]
  else
    []

/-- Embedding of the HTTP onRequest handler of the TS variant: the validator
verdict comes first; on failure the promise rejects with the validator error
and nothing else runs; on success the message is dispatched and the handler
then responds 200. -/
def onRequest (sigValid : Bool) (sigErr : String) (p : Payload)
    (fetchResp : Except String Int) :
    Except String Unit × List (Effect SubscriptionState) :=
  if sigValid then
    (.ok (), handleTopicSubscriptionMesage p fetchResp ++ [.respond 200])
  else
    (.error sigErr, [])

end TS

namespace P0

/-- Handshake status enum of src/unnamed/part_000 (no CONFIRMED member). -/
inductive SubscriptionStatus where
  | PENDING
  | FAILED
deriving DecidableEq, Repr

/-- Persisted handshake record of src/unnamed/part_000; createdAt is a
required field of the TypeScript interface in this variant. -/
structure SubscriptionState where
  status : SubscriptionStatus
  createdAt : Int
  description : Option String := none
deriving DecidableEq, Repr

def subscriptionConfirmationKey : String := "subscription-confirmation"

def subscriptionTimeoutSeconds : Int := 180

def subscriptionRecheckSeconds : Int := 5

/-- Timeout test of part_000, (Date.now() - createdAt) / 1000 >
subscriptionTimeoutSeconds, embedded as the exactly equivalent integer
comparison on millisecond operands; validated by P0_timeoutExceeded_iff_rat
below. -/
def timeoutExceeded (nowMs createdAtMs : Int) : Bool :=
  nowMs - createdAtMs > subscriptionTimeoutSeconds * 1000

/-- Environment of one onSync tick of the part_000 variant; this variant has
no reset marker and always subscribes with the https protocol. -/
structure SyncEnv where
  subscriptionArn : Option String
  topicArn : String
  endpointURL : String
  attributes : List (String × String)
  pages : List Page
  kvState : Option SubscriptionState
  now : Int
  subscribeStatusCode : Int
  subscribeArn : Option String
deriving DecidableEq, Repr

/-- Tail of part_000 onSync from the SubscribeCommand onward (lines 176-215
of the source): the protocol is the fixed string https; on a 200 response a
fresh PENDING record is persisted (awaited, TTL = timeout) and the returned
identity stored in the signal. -/
def subscribeFlow (env : SyncEnv) : SyncResult × List (Effect SubscriptionState) :=
  let call : Effect SubscriptionState :=
    .subscribe env.topicArn "https" env.endpointURL env.attributes
  if env.subscribeStatusCode ≠ 200 then
    ({ newStatus := "failed", signalUpdates := some none,
       customStatusDescription :=
         some ("Failed to issue subscribe command, statusCode: "
           ++ toString env.subscribeStatusCode) },
     [call])
  else
    ({ newStatus := "in_progress", signalUpdates := some env.subscribeArn,
       nextScheduleDelay := some subscriptionRecheckSeconds },
     [call,
      .kvSet subscriptionConfirmationKey
        { status := .PENDING, createdAt := env.now }
        (some subscriptionTimeoutSeconds) true])

/-- Embedding of onSync of src/unnamed/part_000: no reset marker, a required
createdAt on the PENDING record, and a 180 s timeout window. -/
def onSync (env : SyncEnv) : SyncResult × List (Effect SubscriptionState) :=
  match env.subscriptionArn with
  | none => subscribeFlow env
  | some arn =>
    if arn = "" then subscribeFlow env
    else if checkTopicSubscriptionExists arn env.pages then
      ({ newStatus := "ready" }, [.kvDelete [subscriptionConfirmationKey] true])
    else
      match env.kvState with
      | none => subscribeFlow env
      | some st =>
        match st.status with
        | .PENDING =>
          if timeoutExceeded env.now st.createdAt then
            subscribeFlow env
          else
            ({ newStatus := "in_progress",
               nextScheduleDelay := some subscriptionRecheckSeconds }, [])
        | .FAILED =>
          ({ newStatus := "failed", signalUpdates := some none,
             customStatusDescription := st.description }, [])

/-- Embedding of deleteTopicSubscription of part_000; only the thrown
message text differs from the TS variant. -/
def deleteTopicSubscription (subscriptionArn : String) (resp : Except String Int) :
    Except String Unit × List (Effect SubscriptionState) :=
  match resp with
  | .error msg => (.error msg, [.unsubscribe subscriptionArn])
  | .ok code =>
    if code ≠ 200 then
      (.error ("Failed to issue unsubscribe command, statusCode: " ++ toString code),
       [.unsubscribe subscriptionArn])
    else
      (.ok (), [.unsubscribe subscriptionArn, .kvDelete [subscriptionConfirmationKey] true])

/-- Embedding of onDrain of part_000 (structurally identical to the TS
variant). -/
def onDrain (subscriptionArn : Option String) (resp : Except String Int) :
    SyncResult × List (Effect SubscriptionState) :=
  match subscriptionArn with
  | none => ({ newStatus := "drained" }, [])
  | some arn =>
    if arn = "" then ({ newStatus := "drained" }, [])
    else
      let del := deleteTopicSubscription arn resp
      match del.1 with
      | .error msg =>
        ({ newStatus := "draining_failed", customStatusDescription := some msg },
         .kvDelete [subscriptionConfirmationKey] true :: del.2)
      | .ok _ =>
        ({ newStatus := "drained" },
         .kvDelete [subscriptionConfirmationKey] true :: del.2)

/-- Embedding of handleTopicSubscriptionMesage of part_000; in this variant
the FAILED records written by the handler carry createdAt = Date.now(), so
the current clock is part of the environment. The FAILED writes are issued
without await (awaited = false), matching the source. -/
def handleTopicSubscriptionMesage (p : Payload) (fetchResp : Except String Int)
    (now : Int) : List (Effect SubscriptionState) :=
  if p.«Type» = "SubscriptionConfirmation" then
    let fe : Effect SubscriptionState := .fetchURL p.SubscribeURL
    let confirmEffects :=
      match fetchResp with
      | .ok code =>
        if code ≠ 200 then
          [fe, .kvSet subscriptionConfirmationKey
            { status := .FAILED, createdAt := now,
              description := some ("Failed to confirm subscription, status code: "
                ++ toString code) }
            none false]
        else [fe]
      | .error msg =>
        [fe, .kvSet subscriptionConfirmationKey
          { status := .FAILED, createdAt := now,
            description := some ("Failed to issue confirm subscription request: " ++ msg) }
          none false]
    confirmEffects ++ [.requestSync]
  else if p.«Type» = "Notification" then
    [.emit { message := p.Message, messageId := p.MessageId, timestamp := p.Timestamp }]
  else
    []

/-- Embedding of the HTTP onRequest handler of part_000: a payload whose
TopicArn differs from the configured topic is dropped silently before any
validation; otherwise the validator verdict decides between rejection with
the validator error and dispatch followed by the 200 response. -/
def onRequest (topicArn : String) (sigValid : Bool) (sigErr : String) (p : Payload)
    (fetchResp : Except String Int) (now : Int) :
    Except String Unit × List (Effect SubscriptionState) :=
  if topicArn ≠ p.TopicArn then
    (.ok (), [])
  else if sigValid then
    (.ok (), handleTopicSubscriptionMesage p fetchResp now ++ [.respond 200])
  else
    (.error sigErr, [])

end P0

/-- Concrete tick environment: reset marker set, no identity held. -/
def envReset : TS.SyncEnv :=
  { resetFlag := true
    subscriptionArn := none
    topicArn := "arn:topic-a"
    endpointURL := "https://cb.example"
    attributes := []
    pages := []
    kvState := none
    now := 0
    subscribeStatusCode := 200
    subscribeArn := some "sub-2" }

/-- Concrete tick environment: identity sub-1 held and listed remotely. -/
def envRemotePresent : TS.SyncEnv :=
  { resetFlag := false
    subscriptionArn := some "sub-1"
    topicArn := "arn:topic-a"
    endpointURL := "https://cb.example"
    attributes := []
    pages := [⟨some [⟨some "sub-0"⟩, ⟨some "sub-1"⟩], none⟩]
    kvState := some { status := .FAILED, description := some "old" }
    now := 0
    subscribeStatusCode := 200
    subscribeArn := some "sub-2" }

/-- Concrete tick environment: identity held, not listed remotely, PENDING
record created 1000 ms ago (inside the 30 s window). -/
def envPendingFresh : TS.SyncEnv :=
  { resetFlag := false
    subscriptionArn := some "sub-1"
    topicArn := "arn:topic-a"
    endpointURL := "https://cb.example"
    attributes := []
    pages := []
    kvState := some { status := .PENDING, createdAt := some 1000 }
    now := 2000
    subscribeStatusCode := 200
    subscribeArn := some "sub-2" }

/-- Concrete tick environment: as envPendingFresh but 31001 ms elapsed,
strictly past the 30 s window. -/
def envPendingStale : TS.SyncEnv :=
  { envPendingFresh with now := 32001 }

/-- Concrete tick environment: PENDING record without a createdAt value. -/
def envPendingNoCreatedAt : TS.SyncEnv :=
  { envPendingFresh with kvState := some { status := .PENDING } }

/-- Concrete tick environment: no identity held, no reset marker. -/
def envNoIdentity : TS.SyncEnv :=
  { envPendingFresh with subscriptionArn := none, kvState := none }

/-- Concrete part_000 tick environment: identity held, not listed remotely,
PENDING record created 1000 ms ago (inside the 180 s window). -/
def envP0PendingFresh : P0.SyncEnv :=
  { subscriptionArn := some "sub-1"
    topicArn := "arn:topic-a"
    endpointURL := "https://cb.example"
    attributes := []
    pages := []
    kvState := some { status := .PENDING, createdAt := 1000 }
    now := 2000
    subscribeStatusCode := 200
    subscribeArn := some "sub-2" }

/-- Concrete part_000 tick environment: as envP0PendingFresh but 180001 ms
elapsed, strictly past the 180 s window. -/
def envP0PendingStale : P0.SyncEnv :=
  { envP0PendingFresh with now := 181001 }

/-- Concrete part_000 tick environment: identity held and listed remotely. -/
def envP0RemotePresent : P0.SyncEnv :=
  { envP0PendingFresh with pages := [⟨some [⟨some "sub-0"⟩, ⟨some "sub-1"⟩], none⟩] }

/-- Concrete part_000 tick environment: no identity held. -/
def envP0NoIdentity : P0.SyncEnv :=
  { envP0PendingFresh with subscriptionArn := none, kvState := none }

/-- Concrete Notification payload of the running example scenario. -/
def notifPayload : Payload :=
  { «Type» := "Notification"
    TopicArn := "arn:topic-a"
    Message := "hi"
    MessageId := "m1"
    Timestamp := "t1" }

/-- Concrete SubscriptionConfirmation payload. -/
def confirmPayload : Payload :=
  { «Type» := "SubscriptionConfirmation"
    TopicArn := "arn:topic-a"
    SubscribeURL := "https://sns.example/confirm" }

/-- Concrete Notification payload claiming a topic other than arn:topic-a. -/
def notifBadTopicPayload : Payload :=
  { notifPayload with TopicArn := "arn:topic-b" }

/-- Exact rational form of the JavaScript millisecond-to-second comparison:
d / 1000 > T over the rationals is the integer comparison d > T * 1000. -/
theorem rat_thousandth_gt_iff (d T : Int) :
    (d : ℚ) / 1000 > (T : ℚ) ↔ d > T * 1000 := by
  rw [gt_iff_lt, lt_div_iff₀ (by norm_num : (0 : ℚ) < 1000)]
  constructor
  · intro h
    exact_mod_cast h
  · intro h
    exact_mod_cast h

/-- Validation of the TS timeout embedding against the literal source
expression (Date.now() - createdAt) / 1000 > subscriptionTimeoutSeconds
read over exact rationals. -/
theorem TS_timeoutExceeded_iff_rat (a b : Int) :
    TS.timeoutExceeded a b = true ↔
      ((a - b : Int) : ℚ) / 1000 > ((TS.subscriptionTimeoutSeconds : Int) : ℚ) := by
  rw [rat_thousandth_gt_iff]
  simp [TS.timeoutExceeded]

/-- Validation of the part_000 timeout embedding against the literal source
expression read over exact rationals. -/
theorem P0_timeoutExceeded_iff_rat (a b : Int) :
    P0.timeoutExceeded a b = true ↔
      ((a - b : Int) : ℚ) / 1000 > ((P0.subscriptionTimeoutSeconds : Int) : ℚ) := by
  rw [rat_thousandth_gt_iff]
  simp [P0.timeoutExceeded]

example : checkTopicSubscriptionExists "s"
    [⟨some [⟨some "a"⟩, ⟨some "s"⟩], none⟩] = true := by decide

example : checkTopicSubscriptionExists "s"
    [⟨some [⟨some "a"⟩], some "tok"⟩, ⟨some [⟨some "s"⟩], none⟩] = true := by decide

example : checkTopicSubscriptionExists "s"
    [⟨some [⟨some "a"⟩], some "tok"⟩, ⟨some [⟨none⟩], none⟩] = false := by decide

example : (TS.onSync envReset).1.newStatus = "draft" := by decide

example : (TS.onSync envRemotePresent).1.newStatus = "ready" := by decide

example : (TS.onSync envPendingFresh).1.newStatus = "in_progress" := by decide

example : subscribeIssued (TS.onSync envPendingFresh).2 = false := by decide

example : subscribeIssued (TS.onSync envPendingStale).2 = true := by decide

example : subscribeIssued (TS.onSync envPendingNoCreatedAt).2 = true := by decide

example : subscribeIssued (TS.onSync envNoIdentity).2 = true := by decide

example : subscribeIssued (P0.onSync envP0PendingFresh).2 = false := by decide

example : subscribeIssued (P0.onSync envP0PendingStale).2 = true := by decide

example : (P0.onSync envP0RemotePresent).1.newStatus = "ready" := by decide

/-- Helper: the TS subscribe tail always issues a Subscribe call, never an
Unsubscribe, always produces a nonempty trace, and ends in status failed or
in_progress. -/
theorem TS_subscribeFlow_issues (env : TS.SyncEnv) :
    subscribeIssued (TS.subscribeFlow env).2 = true ∧
    unsubscribeIssued (TS.subscribeFlow env).2 = false ∧
    (TS.subscribeFlow env).2 ≠ [] ∧
    ((TS.subscribeFlow env).1.newStatus = "failed" ∨
     (TS.subscribeFlow env).1.newStatus = "in_progress") := by
  unfold TS.subscribeFlow
  by_cases h : env.subscribeStatusCode = 200 <;>
    simp [h, subscribeIssued, unsubscribeIssued]

/-- Helper: the part_000 subscribe tail always issues a Subscribe call, never
an Unsubscribe, always produces a nonempty trace, and ends in status failed
or in_progress. -/
theorem P0_subscribeFlow_issues (env : P0.SyncEnv) :
    subscribeIssued (P0.subscribeFlow env).2 = true ∧
    unsubscribeIssued (P0.subscribeFlow env).2 = false ∧
    (P0.subscribeFlow env).2 ≠ [] ∧
    ((P0.subscribeFlow env).1.newStatus = "failed" ∨
     (P0.subscribeFlow env).1.newStatus = "in_progress") := by
  unfold P0.subscribeFlow
  by_cases h : env.subscribeStatusCode = 200 <;>
    simp [h, subscribeIssued, unsubscribeIssued]

/-- Helper: no branch of TS onSync ever issues an Unsubscribe call. -/
theorem TS_onSync_no_unsubscribe (env : TS.SyncEnv) :
    unsubscribeIssued (TS.onSync env).2 = false := by
  have hs := (TS_subscribeFlow_issues env).2.1
  unfold TS.onSync
  repeat' split
  all_goals first
    | exact hs
    | simp [unsubscribeIssued]

/-- Helper: no branch of part_000 onSync ever issues an Unsubscribe call. -/
theorem P0_onSync_no_unsubscribe (env : P0.SyncEnv) :
    unsubscribeIssued (P0.onSync env).2 = false := by
  have hs := (P0_subscribeFlow_issues env).2.1
  unfold P0.onSync
  repeat' split
  all_goals first
    | exact hs
    | simp [unsubscribeIssued]

/-- C1: the claim says checkTopicSubscriptionExists returns true iff some
page of the ListSubscriptions response sequence lists an entry whose
SubscriptionArn equals the held identity, and false once pagination is
exhausted without a match. The source tests
Subscriptions?.findIndex(...) !== -1, and when a page carries no
Subscriptions field the optional chain yields undefined, undefined !== -1
holds, and the function answers true. At the single-page response without a
Subscriptions field the code therefore returns true although no page
contains the identity (the spec-shaped predicate is false there). -/
theorem c1_exists_check_true_on_page_without_subscriptions_field :
    checkTopicSubscriptionExists "sub-1" [⟨none, none⟩] = true ∧
    specSubscriptionExists "sub-1" [⟨none, none⟩] = false := by
  decide

/-- C5: at a verified SubscriptionConfirmation payload whose SubscribeURL
fetch returns the non-200 status 403, the handler writes the FAILED record
with the cause in its description, but issues that write without awaiting it
(awaited = false in the trace) and then acknowledges with 200; the source
therefore does not guarantee the FAILED state is durably recorded before the
acknowledgment, although the write precedes the response in program order. -/
theorem c5_failed_write_not_awaited_before_ack :
    TS.onRequest true "" confirmPayload (.ok 403) =
      (.ok (), [.fetchURL "https://sns.example/confirm",
        .kvSet TS.subscriptionConfirmationKey
          { status := .FAILED,
            description := some "Confirming subscription, status code: 403" }
          none false,
        .requestSync, .respond 200]) ∧
    P0.onRequest "arn:topic-a" true "" confirmPayload (.ok 403) 5000 =
      (.ok (), [.fetchURL "https://sns.example/confirm",
        .kvSet P0.subscriptionConfirmationKey
          { status := .FAILED, createdAt := 5000,
            description := some "Failed to confirm subscription, status code: 403" }
          none false,
        .requestSync, .respond 200]) := by
  constructor
  · rfl
  · rfl

/-- C2 counterexample: in the part_000 variant the topic pre-check runs
before signature verification, so a payload whose signature fails and whose
TopicArn differs from the configured topic is dropped silently; the handler
returns successfully and propagates no error, contradicting the claim that
every payload failing signature verification is rejected with an error. -/
theorem c2_counterexample_mismatched_topic_bad_signature_not_rejected :
    P0.onRequest "arn:topic-a" false "invalid signature" notifBadTopicPayload (.ok 200) 0
      = (.ok (), []) ∧
    notifBadTopicPayload.TopicArn ≠ "arn:topic-a" := by
  constructor
  · rfl
  · decide

/-- C2 amended: for every payload that reaches signature verification (every
payload in the TS variant, which has no topic pre-check; a payload whose
TopicArn equals the configured topic in the part_000 variant), a failing
signature makes the handler propagate the validator error to the caller and
produce no effect at all: no key-value write, no event emission, and no
success acknowledgment. Verification thus precedes every state mutation and
event emission. -/
theorem c2_bad_signature_rejected_without_effects (sigErr : String) (p : Payload)
    (fr : Except String Int) (cfg : String) (now : Int) (hmatch : cfg = p.TopicArn) :
    TS.onRequest false sigErr p fr = (.error sigErr, []) ∧
    P0.onRequest cfg false sigErr p fr now = (.error sigErr, []) := by
  constructor
  · rfl
  · simp [P0.onRequest, hmatch]

/-- C2 witness: the amended statement at a concrete payload. -/
theorem c2_bad_signature_rejected_without_effects_witness :
    TS.onRequest false "bad signature" notifPayload (.ok 200)
      = (.error "bad signature", []) ∧
    P0.onRequest "arn:topic-a" false "bad signature" notifPayload (.ok 200) 0
      = (.error "bad signature", []) :=
  c2_bad_signature_rejected_without_effects "bad signature" notifPayload (.ok 200)
    "arn:topic-a" 0 rfl

/-- C4 counterexample: the subscribeSNSTopic.ts variant performs no topic
check in its HTTP handler, so a signature-valid Notification payload whose
TopicArn differs from the configured topic (arn:topic-a) is dispatched: an
output event is emitted and the request acknowledged, contradicting the
claim that every mismatched payload is dropped without dispatch. -/
theorem c4_counterexample_ts_variant_dispatches_mismatched_topic :
    TS.onRequest true "" notifBadTopicPayload (.ok 200)
      = (.ok (), [.emit { message := "hi", messageId := "m1", timestamp := "t1" },
                  .respond 200]) ∧
    notifBadTopicPayload.TopicArn ≠ "arn:topic-a" := by
  constructor
  · rfl
  · decide

/-- C4 amended: in the part_000 variant (the one with the topic pre-check),
every inbound payload whose TopicArn differs from the configured topic is
dropped silently regardless of the signature verdict: nothing is dispatched,
no state is written, no event is emitted, and the handler returns
successfully rather than failing the request. The subscribeSNSTopic.ts
variant performs no such check and dispatches mismatched payloads. -/
theorem c4_topic_mismatch_dropped_silently (cfg sigErr : String) (sv : Bool)
    (p : Payload) (fr : Except String Int) (now : Int) (hne : cfg ≠ p.TopicArn) :
    P0.onRequest cfg sv sigErr p fr now = (.ok (), []) := by
  simp [P0.onRequest, hne]

/-- C4 witness: the amended statement at a concrete mismatched payload. -/
theorem c4_topic_mismatch_dropped_silently_witness :
    P0.onRequest "arn:topic-a" true "" notifBadTopicPayload (.ok 200) 0 = (.ok (), []) :=
  c4_topic_mismatch_dropped_silently "arn:topic-a" "" true notifBadTopicPayload (.ok 200) 0
    (by decide)

/-- C10: for every verified Notification payload (one that reaches dispatch:
any payload in the TS variant, a topic-matching one in part_000), the handler
produces exactly one output event whose payload carries exactly the message,
messageId and timestamp fields copied from the Message, MessageId and
Timestamp fields of the inbound payload, followed only by the 200
acknowledgment: the trace contains no key-value write, so the persisted
handshake state is untouched, and the handler returns no signal update, so
the identity signal is untouched. -/
theorem c10_notification_emits_exactly_three_field_event (sigErr : String) (p : Payload)
    (fr : Except String Int) (now : Int) (hty : p.«Type» = "Notification") :
    TS.onRequest true sigErr p fr
      = (.ok (), [.emit { message := p.Message, messageId := p.MessageId,
                          timestamp := p.Timestamp }, .respond 200]) ∧
    P0.onRequest p.TopicArn true sigErr p fr now
      = (.ok (), [.emit { message := p.Message, messageId := p.MessageId,
                          timestamp := p.Timestamp }, .respond 200]) := by
  constructor
  · simp [TS.onRequest, TS.handleTopicSubscriptionMesage, hty]
  · simp [P0.onRequest, P0.handleTopicSubscriptionMesage, hty]

/-- C10 witness: the scenario E payload Message hi, MessageId m1,
Timestamp t1 yields exactly one event with those three fields. -/
theorem c10_notification_emits_exactly_three_field_event_witness :
    TS.onRequest true "e" notifPayload (.ok 200)
      = (.ok (), [.emit { message := "hi", messageId := "m1", timestamp := "t1" },
                  .respond 200]) ∧
    P0.onRequest "arn:topic-a" true "e" notifPayload (.ok 200) 0
      = (.ok (), [.emit { message := "hi", messageId := "m1", timestamp := "t1" },
                  .respond 200]) :=
  c10_notification_emits_exactly_three_field_event "e" notifPayload (.ok 200) 0 rfl

/-- C6: a reconciliation tick of the TS variant that holds an identity, does
not find it remotely, and reads a PENDING handshake record without a
createdAt value takes exactly the re-subscribe path (the source breaks out of
the switch after the warning), issuing a Subscribe call rather than crashing
or idling in in_progress; in the part_000 variant createdAt is a required
field of the record type, so such a record is not representable there. -/
theorem c6_pending_without_createdat_forces_resubscribe (env : TS.SyncEnv) (a : String)
    (d : Option String)
    (h1 : env.resetFlag = false) (h2 : env.subscriptionArn = some a) (ha : a ≠ "")
    (h3 : checkTopicSubscriptionExists a env.pages = false)
    (h4 : env.kvState = some { status := .PENDING, description := d, createdAt := none }) :
    TS.onSync env = TS.subscribeFlow env ∧ subscribeIssued (TS.onSync env).2 = true := by
  have he : TS.onSync env = TS.subscribeFlow env := by
    simp [TS.onSync, h1, h2, ha, h3, h4]
  exact ⟨he, by rw [he]; exact (TS_subscribeFlow_issues env).1⟩

/-- C6 witness: the statement at a concrete environment holding a PENDING
record with no createdAt. -/
theorem c6_pending_without_createdat_forces_resubscribe_witness :
    TS.onSync envPendingNoCreatedAt = TS.subscribeFlow envPendingNoCreatedAt ∧
    subscribeIssued (TS.onSync envPendingNoCreatedAt).2 = true :=
  c6_pending_without_createdat_forces_resubscribe envPendingNoCreatedAt "sub-1" none
    rfl rfl (by decide) rfl rfl

/-- C7 counterexample: in the TS variant a tick that observes the pending
reconfiguration-reset marker returns draft and issues no Subscribe call even
though no identity signal is held, contradicting the claim that the action
on an identity-less tick is always a Subscribe call. -/
theorem c7_counterexample_reset_tick_without_identity_does_not_subscribe :
    envReset.subscriptionArn = none ∧
    subscribeIssued (TS.onSync envReset).2 = false ∧
    (TS.onSync envReset).1.newStatus = "draft" := by
  decide

/-- C7 amended: on every reconciliation tick with no identity signal held and
(in the TS variant) no pending reset marker, the tick always issues a
Subscribe call and never reports ready; and no onSync tick of either variant
ever issues an Unsubscribe call under any circumstances. When the TS reset
marker is pending, the tick instead reports draft without any provider call. -/
theorem c7_no_identity_next_action_subscribe (envT : TS.SyncEnv) (envP : P0.SyncEnv)
    (h1 : envT.resetFlag = false) (h2 : envT.subscriptionArn = none)
    (h3 : envP.subscriptionArn = none) :
    subscribeIssued (TS.onSync envT).2 = true ∧
    (TS.onSync envT).1.newStatus ≠ "ready" ∧
    subscribeIssued (P0.onSync envP).2 = true ∧
    (P0.onSync envP).1.newStatus ≠ "ready" ∧
    unsubscribeIssued (TS.onSync envT).2 = false ∧
    unsubscribeIssued (P0.onSync envP).2 = false := by
  have ht : TS.onSync envT = TS.subscribeFlow envT := by simp [TS.onSync, h1, h2]
  have hp : P0.onSync envP = P0.subscribeFlow envP := by simp [P0.onSync, h3]
  refine ⟨?_, ?_, ?_, ?_, TS_onSync_no_unsubscribe envT, P0_onSync_no_unsubscribe envP⟩
  · rw [ht]; exact (TS_subscribeFlow_issues envT).1
  · rw [ht]; rcases (TS_subscribeFlow_issues envT).2.2.2 with h | h <;> rw [h] <;> decide
  · rw [hp]; exact (P0_subscribeFlow_issues envP).1
  · rw [hp]; rcases (P0_subscribeFlow_issues envP).2.2.2 with h | h <;> rw [h] <;> decide

/-- C7 witness: the amended statement at concrete identity-less
environments. -/
theorem c7_no_identity_next_action_subscribe_witness :
    subscribeIssued (TS.onSync envNoIdentity).2 = true ∧
    (TS.onSync envNoIdentity).1.newStatus ≠ "ready" ∧
    subscribeIssued (P0.onSync envP0NoIdentity).2 = true ∧
    (P0.onSync envP0NoIdentity).1.newStatus ≠ "ready" ∧
    unsubscribeIssued (TS.onSync envNoIdentity).2 = false ∧
    unsubscribeIssued (P0.onSync envP0NoIdentity).2 = false :=
  c7_no_identity_next_action_subscribe envNoIdentity envP0NoIdentity rfl rfl rfl

/-- C8: on every tick holding an identity that the existence check confirms
remotely (in the TS variant additionally with no pending reset marker, since
that marker precedes the check), both variants return status ready with no
signal update (the identity is unchanged), and the only effect is the awaited
deletion of the handshake record, whatever that record held (the stored
record is never read on this path, so its prior PENDING or FAILED status is
irrelevant). -/
theorem c8_remote_present_yields_ready_and_clears_record (envT : TS.SyncEnv) (a : String)
    (envP : P0.SyncEnv) (b : String)
    (h1 : envT.resetFlag = false) (h2 : envT.subscriptionArn = some a) (ha : a ≠ "")
    (h3 : checkTopicSubscriptionExists a envT.pages = true)
    (h4 : envP.subscriptionArn = some b) (hb : b ≠ "")
    (h5 : checkTopicSubscriptionExists b envP.pages = true) :
    TS.onSync envT = ({ newStatus := "ready" }, [.kvDelete [TS.subscriptionConfirmationKey] true]) ∧
    P0.onSync envP = ({ newStatus := "ready" }, [.kvDelete [P0.subscriptionConfirmationKey] true]) := by
  constructor
  · simp [TS.onSync, h1, h2, ha, h3]
  · simp [P0.onSync, h4, hb, h5]

/-- C8 witness: concrete environments whose pages list the held identity;
the TS one still stores a FAILED handshake record, which is discarded. -/
theorem c8_remote_present_yields_ready_and_clears_record_witness :
    TS.onSync envRemotePresent = ({ newStatus := "ready" }, [.kvDelete [TS.subscriptionConfirmationKey] true]) ∧
    P0.onSync envP0RemotePresent = ({ newStatus := "ready" }, [.kvDelete [P0.subscriptionConfirmationKey] true]) :=
  c8_remote_present_yields_ready_and_clears_record envRemotePresent "sub-1"
    envP0RemotePresent "sub-1" rfl rfl (by decide) rfl rfl (by decide) rfl

/-- C9: for both variants, a drain invocation with a held identity whose
Unsubscribe fails (a thrown network error, or a non-200 provider status
turned into a thrown error) returns status draining_failed carrying the
error message as description and no signal update, so the identity signal is
left intact; a successful Unsubscribe, or a drain with no identity held,
returns status drained. -/
theorem c9_drain_unsubscribe_failure_keeps_signal (a m : String) (c : Int)
    (resp rp : Except String Int) (ha : a ≠ "") (hc : c ≠ 200) :
    TS.onDrain (some a) (.error m) = ({ newStatus := "draining_failed", customStatusDescription := some m }, [.kvDelete [TS.subscriptionConfirmationKey] true, .unsubscribe a]) ∧
    TS.onDrain (some a) (.ok c) = ({ newStatus := "draining_failed", customStatusDescription := some ("Couldn\x27t issue SNS unsubscribe command, statusCode: " ++ toString c) }, [.kvDelete [TS.subscriptionConfirmationKey] true, .unsubscribe a]) ∧
    TS.onDrain (some a) (.ok 200) = ({ newStatus := "drained" }, [.kvDelete [TS.subscriptionConfirmationKey] true, .unsubscribe a, .kvDelete [TS.subscriptionConfirmationKey] true]) ∧
    TS.onDrain none resp = ({ newStatus := "drained" }, []) ∧
    P0.onDrain (some a) (.error m) = ({ newStatus := "draining_failed", customStatusDescription := some m }, [.kvDelete [P0.subscriptionConfirmationKey] true, .unsubscribe a]) ∧
    P0.onDrain (some a) (.ok c) = ({ newStatus := "draining_failed", customStatusDescription := some ("Failed to issue unsubscribe command, statusCode: " ++ toString c) }, [.kvDelete [P0.subscriptionConfirmationKey] true, .unsubscribe a]) ∧
    P0.onDrain (some a) (.ok 200) = ({ newStatus := "drained" }, [.kvDelete [P0.subscriptionConfirmationKey] true, .unsubscribe a, .kvDelete [P0.subscriptionConfirmationKey] true]) ∧
    P0.onDrain none rp = ({ newStatus := "drained" }, []) := by
  refine ⟨?_, ?_, ?_, ?_, ?_, ?_, ?_, ?_⟩ <;>
    simp [TS.onDrain, TS.deleteTopicSubscription, P0.onDrain, P0.deleteTopicSubscription, ha, hc]

/-- C9 witness: the statement at identity sub-1, network error message, and
non-200 status 500. -/
theorem c9_drain_unsubscribe_failure_keeps_signal_witness :
    TS.onDrain (some "sub-1") (.error "network down") = ({ newStatus := "draining_failed", customStatusDescription := some "network down" }, [.kvDelete [TS.subscriptionConfirmationKey] true, .unsubscribe "sub-1"]) ∧
    TS.onDrain (some "sub-1") (.ok 500) = ({ newStatus := "draining_failed", customStatusDescription := some ("Couldn\x27t issue SNS unsubscribe command, statusCode: " ++ toString (500 : Int)) }, [.kvDelete [TS.subscriptionConfirmationKey] true, .unsubscribe "sub-1"]) ∧
    TS.onDrain (some "sub-1") (.ok 200) = ({ newStatus := "drained" }, [.kvDelete [TS.subscriptionConfirmationKey] true, .unsubscribe "sub-1", .kvDelete [TS.subscriptionConfirmationKey] true]) ∧
    TS.onDrain none (.ok 200) = ({ newStatus := "drained" }, []) ∧
    P0.onDrain (some "sub-1") (.error "network down") = ({ newStatus := "draining_failed", customStatusDescription := some "network down" }, [.kvDelete [P0.subscriptionConfirmationKey] true, .unsubscribe "sub-1"]) ∧
    P0.onDrain (some "sub-1") (.ok 500) = ({ newStatus := "draining_failed", customStatusDescription := some ("Failed to issue unsubscribe command, statusCode: " ++ toString (500 : Int)) }, [.kvDelete [P0.subscriptionConfirmationKey] true, .unsubscribe "sub-1"]) ∧
    P0.onDrain (some "sub-1") (.ok 200) = ({ newStatus := "drained" }, [.kvDelete [P0.subscriptionConfirmationKey] true, .unsubscribe "sub-1", .kvDelete [P0.subscriptionConfirmationKey] true]) ∧
    P0.onDrain none (.ok 200) = ({ newStatus := "drained" }, []) :=
  c9_drain_unsubscribe_failure_keeps_signal "sub-1" "network down" 500 (.ok 200) (.ok 200)
    (by decide) (by decide)

/-- C3 counterexample: a TS tick holding a PENDING record with createdAt 1000
at clock 32001 is strictly past the 30 s window, yet after its re-subscribe
succeeds it still returns status in_progress with the recheck delay; the
status alone is therefore returned both inside and outside the window, and
the claimed iff between in_progress and being within the window is false. -/
theorem c3_counterexample_past_window_tick_still_reports_in_progress :
    envPendingStale.kvState = some { status := .PENDING, createdAt := some 1000 } ∧
    TS.timeoutExceeded envPendingStale.now 1000 = true ∧
    (TS.onSync envPendingStale).1.newStatus = "in_progress" ∧
    (TS.onSync envPendingStale).1.nextScheduleDelay = some TS.subscriptionRecheckSeconds := by
  decide

/-- C3 amended: on a tick holding an identity that is not confirmed remotely
and reading a PENDING record whose createdAt is set (nonzero, the presence
test the TS source uses), the tick returns in_progress with the recheck
delay while issuing no Subscribe call and writing nothing (so createdAt is
not mutated) if and only if now - createdAt is at most the timeout window in
milliseconds (the source comparison is strictly greater-than, so the exact
boundary still waits); once strictly past the window the same tick takes the
re-subscribe path, issues Subscribe, and on a 200 response overwrites the
record with a fresh PENDING one stamped createdAt = now. Both variants are
covered with their own windows, 30 s for TS and 180 s for part_000. -/
theorem c3_pending_window_decides_wait_or_resubscribe (envT : TS.SyncEnv) (a : String)
    (t : Int) (d : Option String) (envP : P0.SyncEnv) (b : String)
    (stP : P0.SubscriptionState)
    (h1 : envT.resetFlag = false) (h2 : envT.subscriptionArn = some a) (ha : a ≠ "")
    (h3 : checkTopicSubscriptionExists a envT.pages = false)
    (h4 : envT.kvState = some { status := .PENDING, description := d, createdAt := some t })
    (ht : t ≠ 0)
    (h5 : envP.subscriptionArn = some b) (hb : b ≠ "")
    (h6 : checkTopicSubscriptionExists b envP.pages = false)
    (h7 : envP.kvState = some stP) (h8 : stP.status = .PENDING) :
    ((TS.onSync envT = ({ newStatus := "in_progress", nextScheduleDelay := some TS.subscriptionRecheckSeconds }, [])) ↔ envT.now - t ≤ TS.subscriptionTimeoutSeconds * 1000) ∧
    (envT.now - t > TS.subscriptionTimeoutSeconds * 1000 →
      TS.onSync envT = TS.subscribeFlow envT ∧
      subscribeIssued (TS.onSync envT).2 = true ∧
      (envT.subscribeStatusCode = 200 →
        Effect.kvSet TS.subscriptionConfirmationKey ({ status := .PENDING, createdAt := some envT.now } : TS.SubscriptionState) (some TS.subscriptionTimeoutSeconds) true ∈ (TS.onSync envT).2)) ∧
    ((P0.onSync envP = ({ newStatus := "in_progress", nextScheduleDelay := some P0.subscriptionRecheckSeconds }, [])) ↔ envP.now - stP.createdAt ≤ P0.subscriptionTimeoutSeconds * 1000) ∧
    (envP.now - stP.createdAt > P0.subscriptionTimeoutSeconds * 1000 →
      P0.onSync envP = P0.subscribeFlow envP ∧
      subscribeIssued (P0.onSync envP).2 = true ∧
      (envP.subscribeStatusCode = 200 →
        Effect.kvSet P0.subscriptionConfirmationKey ({ status := .PENDING, createdAt := envP.now } : P0.SubscriptionState) (some P0.subscriptionTimeoutSeconds) true ∈ (P0.onSync envP).2)) := by
  have hredT : TS.onSync envT =
      (if TS.timeoutExceeded envT.now t then TS.subscribeFlow envT
       else ({ newStatus := "in_progress", nextScheduleDelay := some TS.subscriptionRecheckSeconds }, [])) := by
    simp [TS.onSync, h1, h2, ha, h3, h4, ht]
  have hredP : P0.onSync envP =
      (if P0.timeoutExceeded envP.now stP.createdAt then P0.subscribeFlow envP
       else ({ newStatus := "in_progress", nextScheduleDelay := some P0.subscriptionRecheckSeconds }, [])) := by
    simp [P0.onSync, h5, hb, h6, h7, h8]
  have hTin : envT.now - t ≤ TS.subscriptionTimeoutSeconds * 1000 →
      TS.onSync envT = ({ newStatus := "in_progress", nextScheduleDelay := some TS.subscriptionRecheckSeconds }, []) := by
    intro hle
    have hbe : TS.timeoutExceeded envT.now t = false := by
      unfold TS.timeoutExceeded
      exact decide_eq_false (not_lt.mpr hle)
    rw [hredT, hbe]
    simp
  have hTover : envT.now - t > TS.subscriptionTimeoutSeconds * 1000 →
      TS.onSync envT = TS.subscribeFlow envT := by
    intro hgt
    have hbe : TS.timeoutExceeded envT.now t = true := by
      unfold TS.timeoutExceeded
      exact decide_eq_true hgt
    rw [hredT, hbe]
    simp
  have hPin : envP.now - stP.createdAt ≤ P0.subscriptionTimeoutSeconds * 1000 →
      P0.onSync envP = ({ newStatus := "in_progress", nextScheduleDelay := some P0.subscriptionRecheckSeconds }, []) := by
    intro hle
    have hbe : P0.timeoutExceeded envP.now stP.createdAt = false := by
      unfold P0.timeoutExceeded
      exact decide_eq_false (not_lt.mpr hle)
    rw [hredP, hbe]
    simp
  have hPover : envP.now - stP.createdAt > P0.subscriptionTimeoutSeconds * 1000 →
      P0.onSync envP = P0.subscribeFlow envP := by
    intro hgt
    have hbe : P0.timeoutExceeded envP.now stP.createdAt = true := by
      unfold P0.timeoutExceeded
      exact decide_eq_true hgt
    rw [hredP, hbe]
    simp
  refine ⟨⟨fun hEq => ?_, hTin⟩, fun hgt => ?_, ⟨fun hEq => ?_, hPin⟩, fun hgt => ?_⟩
  · by_contra hgt
    push_neg at hgt
    rw [hTover hgt] at hEq
    exact (TS_subscribeFlow_issues envT).2.2.1 (congrArg Prod.snd hEq)
  · refine ⟨hTover hgt, ?_, fun h200 => ?_⟩
    · rw [hTover hgt]
      exact (TS_subscribeFlow_issues envT).1
    · rw [hTover hgt]
      unfold TS.subscribeFlow
      simp [h200]
  · by_contra hgt
    push_neg at hgt
    rw [hPover hgt] at hEq
    exact (P0_subscribeFlow_issues envP).2.2.1 (congrArg Prod.snd hEq)
  · refine ⟨hPover hgt, ?_, fun h200 => ?_⟩
    · rw [hPover hgt]
      exact (P0_subscribeFlow_issues envP).1
    · rw [hPover hgt]
      unfold P0.subscribeFlow
      simp [h200]

/-- C3 witness: the amended statement at the concrete fresh-PENDING
environments of both variants (records created 1000 ms before the tick). -/
theorem c3_pending_window_decides_wait_or_resubscribe_witness :
    ((TS.onSync envPendingFresh = ({ newStatus := "in_progress", nextScheduleDelay := some TS.subscriptionRecheckSeconds }, [])) ↔ envPendingFresh.now - 1000 ≤ TS.subscriptionTimeoutSeconds * 1000) ∧
    (envPendingFresh.now - 1000 > TS.subscriptionTimeoutSeconds * 1000 →
      TS.onSync envPendingFresh = TS.subscribeFlow envPendingFresh ∧
      subscribeIssued (TS.onSync envPendingFresh).2 = true ∧
      (envPendingFresh.subscribeStatusCode = 200 →
        Effect.kvSet TS.subscriptionConfirmationKey ({ status := .PENDING, createdAt := some envPendingFresh.now } : TS.SubscriptionState) (some TS.subscriptionTimeoutSeconds) true ∈ (TS.onSync envPendingFresh).2)) ∧
    ((P0.onSync envP0PendingFresh = ({ newStatus := "in_progress", nextScheduleDelay := some P0.subscriptionRecheckSeconds }, [])) ↔ envP0PendingFresh.now - 1000 ≤ P0.subscriptionTimeoutSeconds * 1000) ∧
    (envP0PendingFresh.now - 1000 > P0.subscriptionTimeoutSeconds * 1000 →
      P0.onSync envP0PendingFresh = P0.subscribeFlow envP0PendingFresh ∧
      subscribeIssued (P0.onSync envP0PendingFresh).2 = true ∧
      (envP0PendingFresh.subscribeStatusCode = 200 →
        Effect.kvSet P0.subscriptionConfirmationKey ({ status := .PENDING, createdAt := envP0PendingFresh.now } : P0.SubscriptionState) (some P0.subscriptionTimeoutSeconds) true ∈ (P0.onSync envP0PendingFresh).2)) :=
  c3_pending_window_decides_wait_or_resubscribe envPendingFresh "sub-1" 1000 none
    envP0PendingFresh "sub-1" { status := .PENDING, createdAt := 1000 }
    rfl rfl (by decide) rfl rfl (by decide) rfl (by decide) rfl rfl rfl
